/-
Verification of the LokGeet entry store and intake pipeline (app/app.py).

Shallow embedding of the core logic of the Streamlit app:
  * the Entry record (the dict literal built in the meta-form submit handler),
  * the JSON-backed entry store (load_db / save_entry / the export handler),
  * the intake pipeline (process branch: audio save, ASR with graceful
    fallback, transliteration, metadata form, consent gate, persist).

Modelling conventions:
  * The backing file DB_FILE is modelled as an Option FileContent: none means
    the file does not exist; FileContent.wellFormed db is a JSON array that
    parses back to the entry list db (every persisted field is a string, so
    json.dumps / json.loads round-trips); FileContent.malformed is a file
    whose content json.loads cannot parse into a usable list.
  * Python exceptions around store access (json.JSONDecodeError on a
    malformed file) are the Except monad: an error aborts the handler before
    any later write statement runs.
  * The filesystem around uploads is a finite map from path strings to byte
    lists; open(path, "wb").write is setFile (truncate / overwrite).
  * External libraries (faster-whisper, indic-transliteration) sit behind
    the availability flags and provider functions of Env, mirroring the
    WHISPER_AVAILABLE / TRANSLIT_AVAILABLE import guards.
  * Streamlit input widgets return the value the operator leaves in them;
    widgetValue dflt edit is that value, with dflt the value= default and
    edit the operator's override (none = untouched).
  * datetime.utcnow().strftime("%Y%m%dT%H%M%SZ") is formatTs applied to the
    current UTC time, a DateTime record with second resolution; segment
    start/end floats of the ASR output are abstracted away (no claim
    mentions them), segments are kept as their text strings.
-/
import Mathlib

namespace LokGeet

/-- One saved collection record: the 12 fields of the dict literal built in
the submit handler (app.py lines 301-314), in source order. -/
structure Entry where
  id : String
  title : String
  performer : String
  location : String
  context : String
  date_of_recording : String
  uploaded_at : String
  audio_path : String
  transcript : String
  transliteration : String
  translation : String
  detected_language : String
deriving DecidableEq, Repr

/-- The persisted key/value pairs of an Entry, in the order of the dict
literal (app.py lines 301-314).  Used to state which fields the persisted
record carries. -/
def entryFields (e : Entry) : List (String × String) :=
  [("id", e.id), ("title", e.title), ("performer", e.performer),
   ("location", e.location), ("context", e.context),
   ("date_of_recording", e.date_of_recording), ("uploaded_at", e.uploaded_at),
   ("audio_path", e.audio_path), ("transcript", e.transcript),
   ("transliteration", e.transliteration), ("translation", e.translation),
   ("detected_language", e.detected_language)]

/-- Content of a JSON store file: either a well-formed array of entries or
malformed content that json.loads cannot turn into a usable list. -/
inductive FileContent where
  | wellFormed (db : List Entry)
  | malformed
deriving DecidableEq, Repr

/-- Store-level failure: the backing file exists but cannot be parsed
(json.JSONDecodeError in the source, CorruptStoreError in the spec). -/
inductive StoreError where
  | corrupt
deriving DecidableEq, Repr

/-- load_db (app.py lines 207-210): return the parsed list when DB_FILE
exists, the empty list when it does not; a malformed file raises. -/
def load_db : Option FileContent → Except StoreError (List Entry)
  | none => .ok []
  | some (.wellFormed db) => .ok db
  | some .malformed => .error .corrupt

/-- save_entry (app.py lines 212-215): read the full collection, append the
entry, rewrite the file.  If load_db raises, the exception propagates and
the write on line 215 never runs, so the caller's file is unchanged. -/
def save_entry (entry : Entry) (file : Option FileContent) :
    Except StoreError (Option FileContent) := do
  let db ← load_db file
  pure (some (.wellFormed (db ++ [entry])))

/-- A UTC instant at second resolution, the fields datetime.utcnow() exposes
to the format string "%Y%m%dT%H%M%SZ". -/
structure DateTime where
  year : Nat
  month : Nat
  day : Nat
  hour : Nat
  minute : Nat
  second : Nat
deriving DecidableEq, Repr

/-- Zero-pad a number to two digits, as %m, %d, %H, %M, %S do. -/
def pad2 (n : Nat) : String :=
  if n < 10 then "0" ++ toString n else toString n

/-- Zero-pad a number to four digits, as %Y does. -/
def pad4 (n : Nat) : String :=
  if n < 10 then "000" ++ toString n
  else if n < 100 then "00" ++ toString n
  else if n < 1000 then "0" ++ toString n
  else toString n

/-- datetime.utcnow().strftime("%Y%m%dT%H%M%SZ") (app.py line 260): the
timestamp token used as entry id and upload filename prefix. -/
def formatTs (t : DateTime) : String :=
  pad4 t.year ++ pad2 t.month ++ pad2 t.day ++ "T" ++
    pad2 t.hour ++ pad2 t.minute ++ pad2 t.second ++ "Z"

/-- Index of the last '.' in a character list, if any. -/
def lastDotIdx : List Char → Option Nat
  | [] => none
  | c :: rest =>
      match lastDotIdx rest with
      | some i => some (i + 1)
      | none => if c = '.' then some 0 else none

/-- Path(name).suffix for a bare file name (uploaded names carry no
directory part): the part from the last dot, unless that dot is the leading
or the final character. -/
def pathSuffix (name : String) : String :=
  let cs := name.toList
  match lastDotIdx cs with
  | some i => if 0 < i ∧ i < cs.length - 1 then String.mk (cs.drop i) else ""
  | none => ""

/-- Python str.strip(): drop leading and trailing whitespace (the core
whitespace characters; Python's slightly larger whitespace set makes no
difference to any claim). -/
def pyStrip (s : String) : String :=
  String.mk
    (((s.toList.dropWhile Char.isWhitespace).reverse.dropWhile
        Char.isWhitespace).reverse)

/-- The file-uploader extension filter (app.py line 234):
type=["wav", "mp3", "m4a", "ogg"]. -/
def recognizedExt (name : String) : Bool :=
  ["wav", "mp3", "m4a", "ogg"].any
    (fun e => ("." ++ e).toList.isSuffixOf name.toList)

/-- The filesystem state the app touches: the uploads directory (line 39
creates it), the files under it, the backing store DB_FILE and the export
file export.json. -/
structure FS where
  uploadDirExists : Bool
  uploads : List (String × List Nat)
  dbFile : Option FileContent
  exportFile : Option FileContent
deriving DecidableEq, Repr

/-- Module initialization line 39: UPLOAD_DIR.mkdir(parents=True,
exist_ok=True) — create the uploads directory if absent. -/
def moduleInit (fs : FS) : FS :=
  { fs with uploadDirExists := true }

/-- open(path, "wb"): truncate-or-create write of a file. -/
def setFile (path : String) (content : List Nat) :
    List (String × List Nat) → List (String × List Nat)
  | [] => [(path, content)]
  | (p, c) :: rest =>
      if p = path then (path, content) :: rest
      else (p, c) :: setFile path content rest

/-- Read a file's bytes back, none if the path does not exist. -/
def readFile (files : List (String × List Nat)) (path : String) :
    Option (List Nat) :=
  (files.find? (fun pc => pc.1 = path)).map (fun pc => pc.2)

/-- Relative form of UPLOAD_DIR = BASE_DIR / "uploads" (app.py line 38). -/
def UPLOAD_DIR : String := "uploads"

/-- What the external whisper model would return on this audio: segment
texts and the detected language (segment start/end floats are abstracted
away; no claim mentions them). -/
structure AsrOutput where
  segments : List String
  language : String
deriving DecidableEq, Repr

/-- The dict transcribe_with_whisper returns (app.py lines 191-197).  The
error field models the "error" key: present (some) only in the unavailable
branch. -/
structure AsrDict where
  transcript : String
  segments : List String
  language : Option String
  error : Option String
deriving DecidableEq, Repr

/-- transcribe_with_whisper (app.py lines 191-197): when faster-whisper is
unavailable load_model returns None and the function returns an explicit
error dict with an empty transcript instead of raising; otherwise the
transcript is the stripped segment texts joined by spaces. -/
def transcribe_with_whisper (whisperAvailable : Bool) (modelOut : AsrOutput) :
    AsrDict :=
  if whisperAvailable then
    { transcript := String.intercalate " " (modelOut.segments.map pyStrip),
      segments := modelOut.segments,
      language := some modelOut.language,
      error := none }
  else
    { transcript := "", segments := [], language := none,
      error := some "faster-whisper not available" }

/-- lang_to_scheme.get(lang_code, sanscript.DEVANAGARI) (app.py lines
203-204): map a language code to a source script scheme, defaulting to
DEVANAGARI for unknown codes. -/
def lang_to_scheme (lang_code : String) : String :=
  if lang_code = "hi" then "DEVANAGARI"
  else if lang_code = "mr" then "DEVANAGARI"
  else if lang_code = "bn" then "BENGALI"
  else if lang_code = "ta" then "TAMIL"
  else if lang_code = "te" then "TELUGU"
  else "DEVANAGARI"

/-- romanize (app.py lines 199-205): empty string when the transliteration
library is unavailable, otherwise delegate to the external transliterate
function with the mapped source scheme and the ITRANS target scheme. -/
def romanize (translitAvailable : Bool)
    (transliterate : String → String → String → String)
    (text : String) (lang_code : String) : String :=
  if !translitAvailable then ""
  else transliterate text (lang_to_scheme lang_code) "ITRANS"

/-- The external world of one session: library availability flags resolved
at import time (lines 21-34), the external model and transliterate function
behind them, and the clock. -/
structure Env where
  whisperAvailable : Bool
  asrOutput : AsrOutput
  translitAvailable : Bool
  transliterate : String → String → String → String
  now : DateTime

/-- The value a Streamlit text widget yields: its value= default, unless
the operator typed something else (edit = some override). -/
def widgetValue (dflt : String) (edit : Option String) : String :=
  edit.getD dflt

/-- Everything the operator types or clicks in one run of the process
branch and the metadata form. -/
structure OperatorInput where
  transcriptEdit : Option String
  langEdit : Option String
  translitEdit : Option String
  translation : String
  title : String
  performer : String
  location : String
  context : String
  date_of_recording : String
  consent : Bool
  submitted : Bool
deriving DecidableEq, Repr

/-- saved_path = UPLOAD_DIR / f"{ts}{suffix}" (app.py lines 259-261): the
upload path, timestamp id plus the original extension. -/
def savedPathOf (env : Env) (audioName : String) : String :=
  UPLOAD_DIR ++ "/" ++ formatTs env.now ++ pathSuffix audioName

/-- The ASR dict of this run (app.py line 267). -/
def asrResultOf (env : Env) : AsrDict :=
  transcribe_with_whisper env.whisperAvailable env.asrOutput

/-- The transcript text-area value (app.py lines 268-273): defaults to the
empty string when the ASR dict carries an "error" key, to the ASR
transcript otherwise; the operator may edit either way. -/
def transcriptOf (env : Env) (op : OperatorInput) : String :=
  match (asrResultOf env).error with
  | some _ => widgetValue "" op.transcriptEdit
  | none => widgetValue (asrResultOf env).transcript op.transcriptEdit

/-- detected_lang (app.py line 279): asr_result.get("language") if truthy
(present and non-empty), else the language text input (default "hi"). -/
def detectedLangOf (env : Env) (op : OperatorInput) : String :=
  match (asrResultOf env).language with
  | some l => if l = "" then widgetValue "hi" op.langEdit else l
  | none => widgetValue "hi" op.langEdit

/-- transliteration (app.py lines 280-282): empty unless the transcript
has non-whitespace content, in which case romanize when the library is
available and the empty string otherwise. -/
def transliterationOf (env : Env) (op : OperatorInput) : String :=
  let transcript := transcriptOf env op
  if pyStrip transcript ≠ "" then
    if env.translitAvailable then
      romanize env.translitAvailable env.transliterate transcript
        (detectedLangOf env op)
    else ""
  else ""

/-- The entry dict built in the submit handler (app.py lines 301-314). -/
def pipelineEntry (env : Env) (op : OperatorInput) (audioName : String) :
    Entry :=
  { id := formatTs env.now,
    title := op.title,
    performer := op.performer,
    location := op.location,
    context := op.context,
    date_of_recording := op.date_of_recording,
    uploaded_at := formatTs env.now,
    audio_path := savedPathOf env audioName,
    transcript := transcriptOf env op,
    transliteration := widgetValue (transliterationOf env op) op.translitEdit,
    translation := op.translation,
    detected_language := detectedLangOf env op }

/-- Outcome of one run of the process branch plus the metadata form. -/
inductive PipelineResult where
  | notSubmitted
  | rejected
  | saved (e : Entry)
  | storeError (err : StoreError)
deriving DecidableEq, Repr

/-- One run of the intake pipeline (app.py lines 256-316): write the
uploaded bytes to saved_path, run ASR / transliteration / the form widgets,
then on submit either refuse without consent (line 298-299: error message,
no write) or build the entry and save_entry it.  A store exception
propagates out of save_entry before DB_FILE is rewritten. -/
def runPipeline (env : Env) (op : OperatorInput) (audioBytes : List Nat)
    (audioName : String) (fs : FS) : FS × PipelineResult :=
  let fs1 := { fs with uploads := setFile (savedPathOf env audioName) audioBytes fs.uploads }
  if !op.submitted then (fs1, .notSubmitted)
  else if !op.consent then (fs1, .rejected)
  else
    match save_entry (pipelineEntry env op audioName) fs1.dbFile with
    | .error err => (fs1, .storeError err)
    | .ok newDb => ({ fs1 with dbFile := newDb }, .saved (pipelineEntry env op audioName))

/-- The "Export all as JSON" handler (app.py lines 321-325): db = load_db();
write json.dumps(db) to export.json; report len(db) entries written.  A
corrupt backing file raises before the export file is touched. -/
def exportAll (fs : FS) : Except StoreError (FS × Nat) :=
  match load_db fs.dbFile with
  | .error err => .error err
  | .ok db => .ok ({ fs with exportFile := some (.wellFormed db) }, db.length)

/-- The "Show saved entries" handler (app.py lines 245-250): load the
collection and render it; no filesystem write at all. -/
def showSavedEntries (fs : FS) : FS × Except StoreError (List Entry) :=
  (fs, load_db fs.dbFile)

/-- A concrete session: whisper import failed, transliteration library
present and its external transliterate function returns "rAma rAma". -/
def envTranslitEcho : Env :=
  { whisperAvailable := false,
    asrOutput := { segments := [], language := "" },
    translitAvailable := true,
    transliterate := fun _ _ _ => "rAma rAma",
    now := { year := 2024, month := 5, day := 6, hour := 7, minute := 8, second := 9 } }

/-- A concrete session with both optional libraries unavailable. -/
def envNoProviders : Env :=
  { whisperAvailable := false,
    asrOutput := { segments := [], language := "" },
    translitAvailable := false,
    transliterate := fun _ _ _ => "rAma rAma",
    now := { year := 2024, month := 5, day := 6, hour := 7, minute := 8, second := 9 } }

/-- Scenario-1 operator: types transcript "sample lyrics", leaves the other
text boxes untouched, affirms consent, submits. -/
def opScenario1 : OperatorInput :=
  { transcriptEdit := some "sample lyrics",
    langEdit := none,
    translitEdit := none,
    translation := "",
    title := "", performer := "", location := "", context := "",
    date_of_recording := "2024-05-06",
    consent := true, submitted := true }

/-- An operator who fills the form but withholds consent and submits. -/
def opNoConsent : OperatorInput :=
  { transcriptEdit := some "sample lyrics",
    langEdit := none,
    translitEdit := none,
    translation := "",
    title := "", performer := "", location := "", context := "",
    date_of_recording := "2024-05-06",
    consent := false, submitted := true }

/-- Fresh filesystem: uploads directory created, no files, no store. -/
def fsEmpty : FS :=
  { uploadDirExists := true, uploads := [], dbFile := none, exportFile := none }

/-- A concrete entry used to instantiate universally quantified claims. -/
def sampleEntry : Entry :=
  { id := "20240506T070809Z", title := "t", performer := "p", location := "l",
    context := "lullaby", date_of_recording := "2024-05-06",
    uploaded_at := "20240506T070809Z",
    audio_path := "uploads/20240506T070809Z.wav",
    transcript := "tr", transliteration := "tl", translation := "en",
    detected_language := "hi" }

/-- A second concrete entry. -/
def sampleEntry2 : Entry :=
  { sampleEntry with id := "20240506T070810Z", title := "t2" }

/-- A third concrete entry. -/
def sampleEntry3 : Entry :=
  { sampleEntry with id := "20240506T070811Z", title := "t3" }

/-- A filesystem whose backing store holds three entries. -/
def fsThree : FS :=
  { uploadDirExists := true, uploads := [],
    dbFile := some (.wellFormed [sampleEntry, sampleEntry2, sampleEntry3]),
    exportFile := none }

/-- A filesystem whose backing store file exists but is malformed. -/
def fsMalformed : FS :=
  { uploadDirExists := true, uploads := [], dbFile := some .malformed,
    exportFile := none }

/- ------------------------------------------------------------------ -/
/- Helper lemmas                                                       -/
/- ------------------------------------------------------------------ -/

/-- Reading back a path just written returns the written bytes. -/
theorem readFile_setFile_self (path : String) (content : List Nat)
    (files : List (String × List Nat)) :
    readFile (setFile path content files) path = some content := by
  induction files with
  | nil => simp [setFile, readFile]
  | cons pc rest ih =>
      obtain ⟨p, c⟩ := pc
      by_cases h : p = path
      · simp [setFile, h, readFile]
      · simpa [setFile, h, readFile] using ih

/-- The pipeline's only write to the uploads map is the audio save. -/
theorem runPipeline_uploads (env : Env) (op : OperatorInput)
    (b : List Nat) (name : String) (fs : FS) :
    (runPipeline env op b name fs).1.uploads =
      setFile (savedPathOf env name) b fs.uploads := by
  unfold runPipeline
  dsimp only
  split
  · rfl
  · split
    · rfl
    · split <;> rfl

/-- The pipeline never touches the export file. -/
theorem runPipeline_exportFile (env : Env) (op : OperatorInput)
    (b : List Nat) (name : String) (fs : FS) :
    (runPipeline env op b name fs).1.exportFile = fs.exportFile := by
  unfold runPipeline
  dsimp only
  split
  · rfl
  · split
    · rfl
    · split <;> rfl

/-- Inversion: a run can only end in Saved by passing the submit and
consent checks and a successful save_entry of the constructed entry. -/
theorem runPipeline_saved_inv (env : Env) (op : OperatorInput)
    (b : List Nat) (name : String) (fs : FS) (e : Entry)
    (h : (runPipeline env op b name fs).2 = .saved e) :
    e = pipelineEntry env op name ∧ op.consent = true ∧
      op.submitted = true := by
  unfold runPipeline at h
  by_cases hs : op.submitted
  · by_cases hc : op.consent
    · simp only [hs, hc, Bool.not_true, Bool.false_eq_true, if_false] at h
      rcases hsave : save_entry (pipelineEntry env op name) fs.dbFile with err | newDb <;>
        simp [hsave] at h
      exact ⟨h.symm, hc, hs⟩
    · simp [hs, hc] at h
  · simp [hs] at h

/- ------------------------------------------------------------------ -/
/- Claims                                                              -/
/- ------------------------------------------------------------------ -/

/-- C2: for every persisted Collection C and Entry e, save_entry e followed
by load_db returns exactly C with e appended at the end: the rewritten file
parses back to C ++ [e], whose last element is e, whose first C.length
elements are C in order, so no existing entry is altered. -/
theorem append_load_roundtrip (C : List Entry) (e : Entry) :
    save_entry e (some (.wellFormed C)) = .ok (some (.wellFormed (C ++ [e]))) ∧
    load_db (some (.wellFormed (C ++ [e]))) = .ok (C ++ [e]) ∧
    (C ++ [e]).getLast? = some e ∧
    (C ++ [e]).take C.length = C := by
  refine ⟨rfl, rfl, ?_, List.take_left C [e]⟩
  simp

/-- C3: load_db on a never-written store returns the empty list rather than
an error; save_entry on a malformed backing file raises the corrupt-store
error, and a pipeline run hitting that error leaves DB_FILE exactly as it
was (the write on app.py line 215 is never reached). -/
theorem corrupt_store_append (env : Env) (op : OperatorInput)
    (b : List Nat) (name : String) (fs : FS) (e : Entry)
    (hdb : fs.dbFile = some .malformed)
    (hc : op.consent = true) (hs : op.submitted = true) :
    load_db none = .ok [] ∧
    save_entry e (some .malformed) = .error .corrupt ∧
    (runPipeline env op b name fs).2 = .storeError .corrupt ∧
    (runPipeline env op b name fs).1.dbFile = some .malformed := by
  refine ⟨rfl, rfl, ?_, ?_⟩ <;>
    simp [runPipeline, hs, hc, save_entry, load_db, hdb]

/-- C3 witness: a concrete never-written store loads as empty, and a
concrete append on a malformed store errors without changing the file. -/
theorem corrupt_store_append_witness :
    load_db none = .ok [] ∧
    save_entry sampleEntry (some .malformed) = .error .corrupt ∧
    (runPipeline envNoProviders opScenario1 [0] "song1.wav" fsMalformed).2 =
      .storeError .corrupt ∧
    (runPipeline envNoProviders opScenario1 [0] "song1.wav" fsMalformed).1.dbFile =
      some .malformed :=
  corrupt_store_append envNoProviders opScenario1 [0] "song1.wav" fsMalformed
    sampleEntry rfl rfl rfl

/-- C5: the export handler on a well-formed store of C writes the full
collection, in store structure, to the export file, reports C.length
entries written, and the export file parses back to exactly C. -/
theorem export_all_writes_collection (fs : FS) (C : List Entry)
    (h : fs.dbFile = some (.wellFormed C)) :
    exportAll fs = .ok ({ fs with exportFile := some (.wellFormed C) }, C.length) ∧
    load_db ({ fs with exportFile := some (.wellFormed C) } : FS).exportFile = .ok C := by
  constructor
  · simp [exportAll, h, load_db]
  · rfl

/-- C5 witness: exporting a concrete three-entry collection writes those
three entries and reports count 3. -/
theorem export_all_writes_collection_witness :
    exportAll fsThree =
      .ok ({ fsThree with
              exportFile := some (.wellFormed [sampleEntry, sampleEntry2, sampleEntry3]) },
           3) ∧
    load_db ({ fsThree with
        exportFile := some (.wellFormed [sampleEntry, sampleEntry2, sampleEntry3]) } : FS).exportFile =
      .ok [sampleEntry, sampleEntry2, sampleEntry3] :=
  export_all_writes_collection fsThree [sampleEntry, sampleEntry2, sampleEntry3] rfl

/-- C10: export and load are read-only with respect to the backing store:
a successful export leaves DB_FILE, the uploads and the upload directory
untouched (only the export file is written), and the show-saved-entries
handler leaves the filesystem exactly as it was. -/
theorem export_load_readonly (fs fs' : FS) (n : Nat)
    (h : exportAll fs = .ok (fs', n)) :
    fs'.dbFile = fs.dbFile ∧ fs'.uploads = fs.uploads ∧
    fs'.uploadDirExists = fs.uploadDirExists ∧
    (showSavedEntries fs).1 = fs := by
  rcases hdb : load_db fs.dbFile with err | db <;> simp [exportAll, hdb] at h
  rcases h with ⟨hfs, hn⟩
  subst hfs
  exact ⟨rfl, rfl, rfl, rfl⟩

/-- C10 witness: a concrete successful export preserves the backing store
and the uploads. -/
theorem export_load_readonly_witness :
    ({ fsThree with
        exportFile := some (.wellFormed [sampleEntry, sampleEntry2, sampleEntry3]) } : FS).dbFile =
      fsThree.dbFile ∧
    ({ fsThree with
        exportFile := some (.wellFormed [sampleEntry, sampleEntry2, sampleEntry3]) } : FS).uploads =
      fsThree.uploads ∧
    ({ fsThree with
        exportFile := some (.wellFormed [sampleEntry, sampleEntry2, sampleEntry3]) } : FS).uploadDirExists =
      fsThree.uploadDirExists ∧
    (showSavedEntries fsThree).1 = fsThree :=
  export_load_readonly fsThree
    { fsThree with
        exportFile := some (.wellFormed [sampleEntry, sampleEntry2, sampleEntry3]) }
    3 rfl

/-- save_entry on a loadable store succeeds and appends. -/
theorem save_entry_ok (entry : Entry) (file : Option FileContent)
    (db : List Entry) (h : load_db file = .ok db) :
    save_entry entry file = .ok (some (.wellFormed (db ++ [entry]))) := by
  unfold save_entry
  rw [h]
  rfl

/-- A consented, submitted run on a loadable store ends Saved with the
constructed entry appended. -/
theorem runPipeline_saved_of (env : Env) (op : OperatorInput)
    (b : List Nat) (name : String) (fs : FS) (db : List Entry)
    (hdb : load_db fs.dbFile = .ok db)
    (hc : op.consent = true) (hs : op.submitted = true) :
    runPipeline env op b name fs =
      ({ fs with uploads := setFile (savedPathOf env name) b fs.uploads,
                 dbFile := some (.wellFormed (db ++ [pipelineEntry env op name])) },
       .saved (pipelineEntry env op name)) := by
  have hsave := save_entry_ok (pipelineEntry env op name) fs.dbFile db hdb
  unfold runPipeline
  simp only [hs, hc, Bool.not_true, Bool.false_eq_true, if_false, hsave]

/-- C1: withholding consent blocks the Entry Store write: the backing store
after the run is the backing store before the run, and the run does not end
in Saved (no state reaches Saved without consent affirmed at the moment of
persistence). -/
theorem consent_gate_no_write (env : Env) (op : OperatorInput)
    (b : List Nat) (name : String) (fs : FS) (e : Entry)
    (h : op.consent = false) :
    (runPipeline env op b name fs).1.dbFile = fs.dbFile ∧
    (runPipeline env op b name fs).2 ≠ .saved e := by
  constructor
  · unfold runPipeline
    dsimp only
    split
    · rfl
    · simp [h]
  · intro hsaved
    rcases runPipeline_saved_inv env op b name fs e hsaved with ⟨-, hc, -⟩
    rw [h] at hc
    exact Bool.false_ne_true hc

/-- C1 witness: a concrete consent-withheld run leaves the (empty) backing
store untouched and does not end in Saved. -/
theorem consent_gate_no_write_witness :
    (runPipeline envTranslitEcho opNoConsent [0] "song1.wav" fsEmpty).1.dbFile =
      fsEmpty.dbFile ∧
    (runPipeline envTranslitEcho opNoConsent [0] "song1.wav" fsEmpty).2 ≠
      .saved sampleEntry :=
  consent_gate_no_write envTranslitEcho opNoConsent [0] "song1.wav" fsEmpty
    sampleEntry rfl

/-- C4: with consent affirmed and a loadable store, the run saves exactly
the constructed entry: the store afterwards parses to the old collection
with that entry appended (one more entry than before), and the entry's
audio_path reads back as exactly the uploaded bytes. -/
theorem consent_success_appends (env : Env) (op : OperatorInput)
    (b : List Nat) (name : String) (fs : FS) (db : List Entry)
    (hdb : load_db fs.dbFile = .ok db)
    (hc : op.consent = true) (hs : op.submitted = true) :
    (runPipeline env op b name fs).2 = .saved (pipelineEntry env op name) ∧
    load_db (runPipeline env op b name fs).1.dbFile =
      .ok (db ++ [pipelineEntry env op name]) ∧
    (db ++ [pipelineEntry env op name]).length = db.length + 1 ∧
    readFile (runPipeline env op b name fs).1.uploads
      (pipelineEntry env op name).audio_path = some b := by
  have hrun := runPipeline_saved_of env op b name fs db hdb hc hs
  refine ⟨by rw [hrun], by rw [hrun]; rfl, by simp, ?_⟩
  rw [runPipeline_uploads]
  exact readFile_setFile_self _ _ _

/-- C4 witness: a concrete consented run on the empty store ends Saved,
the store holds exactly the one new entry, and its audio_path reads back
as the uploaded bytes. -/
theorem consent_success_appends_witness :
    (runPipeline envNoProviders opScenario1 [1, 2] "song1.wav" fsEmpty).2 =
      .saved (pipelineEntry envNoProviders opScenario1 "song1.wav") ∧
    load_db (runPipeline envNoProviders opScenario1 [1, 2] "song1.wav" fsEmpty).1.dbFile =
      .ok (([] : List Entry) ++ [pipelineEntry envNoProviders opScenario1 "song1.wav"]) ∧
    (([] : List Entry) ++ [pipelineEntry envNoProviders opScenario1 "song1.wav"]).length =
      ([] : List Entry).length + 1 ∧
    readFile (runPipeline envNoProviders opScenario1 [1, 2] "song1.wav" fsEmpty).1.uploads
      (pipelineEntry envNoProviders opScenario1 "song1.wav").audio_path = some [1, 2] :=
  consent_success_appends envNoProviders opScenario1 [1, 2] "song1.wav" fsEmpty []
    rfl rfl rfl

/-- C6: for non-empty bytes and a recognized audio extension, the audio
save step uses the second-resolution UTC timestamp as id, writes to
<upload_dir>/<id><original_extension> (the upload directory having been
created at startup if absent), and that path reads back byte-for-byte as
the uploaded bytes. -/
theorem audio_intake_saves_bytes (env : Env) (op : OperatorInput)
    (b : List Nat) (name : String) (fs : FS)
    (hb : b ≠ []) (hext : recognizedExt name = true) :
    (moduleInit fs).uploadDirExists = true ∧
    savedPathOf env name =
      UPLOAD_DIR ++ "/" ++ formatTs env.now ++ pathSuffix name ∧
    (pipelineEntry env op name).id = formatTs env.now ∧
    readFile (runPipeline env op b name (moduleInit fs)).1.uploads
      (savedPathOf env name) = some b := by
  refine ⟨rfl, rfl, rfl, ?_⟩
  rw [runPipeline_uploads]
  exact readFile_setFile_self _ _ _

/-- C6 witness: a concrete upload of bytes [1, 2, 3] named song1.wav lands
at uploads/<timestamp>.wav and reads back exactly. -/
theorem audio_intake_saves_bytes_witness :
    (moduleInit fsEmpty).uploadDirExists = true ∧
    savedPathOf envNoProviders "song1.wav" =
      UPLOAD_DIR ++ "/" ++ formatTs envNoProviders.now ++ pathSuffix "song1.wav" ∧
    (pipelineEntry envNoProviders opScenario1 "song1.wav").id =
      formatTs envNoProviders.now ∧
    readFile
      (runPipeline envNoProviders opScenario1 [1, 2, 3] "song1.wav"
        (moduleInit fsEmpty)).1.uploads
      (savedPathOf envNoProviders "song1.wav") = some [1, 2, 3] :=
  audio_intake_saves_bytes envNoProviders opScenario1 [1, 2, 3] "song1.wav"
    fsEmpty (by decide) (by decide)

/-- C7: the transliteration contract: romanize yields the empty string when
the library is unavailable (for any text and language code), and the
transliteration value the pipeline computes — the call site on app.py lines
280-282 guards empty and whitespace-only transcripts — is the empty string
whenever the provider is unavailable or the transcript strips to empty. -/
theorem romanize_empty_contract (env : Env) (op : OperatorInput)
    (h : env.translitAvailable = false ∨ pyStrip (transcriptOf env op) = "") :
    romanize false env.transliterate (transcriptOf env op)
      (detectedLangOf env op) = "" ∧
    transliterationOf env op = "" := by
  refine ⟨rfl, ?_⟩
  unfold transliterationOf
  rcases h with h | h <;> simp [h]

/-- C7 witness: in a concrete session without the transliteration library,
romanize and the pipeline transliteration value are both empty. -/
theorem romanize_empty_contract_witness :
    romanize false envNoProviders.transliterate
      (transcriptOf envNoProviders opScenario1)
      (detectedLangOf envNoProviders opScenario1) = "" ∧
    transliterationOf envNoProviders opScenario1 = "" :=
  romanize_empty_contract envNoProviders opScenario1 (Or.inl rfl)

/-- C8 counterexample: with ASR unavailable but the transliteration library
present (its external transliterate returning "rAma rAma"), the run with
operator-typed transcript "sample lyrics" and consent = true persists an
entry whose transliteration is "rAma rAma", not "" — the claim's scenario
pins transliteration = "" only when the transliteration provider is also
unavailable. -/
theorem asr_unavailable_translit_counterexample :
    (runPipeline envTranslitEcho opScenario1 [0] "song1.wav" fsEmpty).2 =
      .saved (pipelineEntry envTranslitEcho opScenario1 "song1.wav") ∧
    (pipelineEntry envTranslitEcho opScenario1 "song1.wav").transcript =
      "sample lyrics" ∧
    (pipelineEntry envTranslitEcho opScenario1 "song1.wav").transliteration =
      "rAma rAma" :=
  ⟨by decide, by decide, by decide⟩

/-- C8 (amended): when the ASR provider is unavailable, transcribe returns
an explicit error-marked dict with an empty transcript instead of raising,
and the pipeline advances normally: a run with the transliteration provider
also unavailable, the transliteration box left untouched, operator-typed
transcript "sample lyrics" and consent = true persists an entry with
transcript "sample lyrics" and transliteration "". -/
theorem asr_unavailable_manual_transcript (env : Env) (op : OperatorInput)
    (b : List Nat) (name : String) (fs : FS) (db : List Entry)
    (hw : env.whisperAvailable = false)
    (ht : env.translitAvailable = false)
    (he : op.transcriptEdit = some "sample lyrics")
    (htb : op.translitEdit = none)
    (hc : op.consent = true) (hs : op.submitted = true)
    (hdb : load_db fs.dbFile = .ok db) :
    (asrResultOf env).error = some "faster-whisper not available" ∧
    (asrResultOf env).transcript = "" ∧
    (runPipeline env op b name fs).2 = .saved (pipelineEntry env op name) ∧
    (pipelineEntry env op name).transcript = "sample lyrics" ∧
    (pipelineEntry env op name).transliteration = "" := by
  have herr : asrResultOf env =
      { transcript := "", segments := [], language := none,
        error := some "faster-whisper not available" } := by
    simp [asrResultOf, transcribe_with_whisper, hw]
  refine ⟨by rw [herr], by rw [herr], ?_, ?_, ?_⟩
  · rw [runPipeline_saved_of env op b name fs db hdb hc hs]
  · simp [pipelineEntry, transcriptOf, herr, he, widgetValue]
  · simp [pipelineEntry, widgetValue, htb, transliterationOf, ht]

/-- C8 witness: the amended scenario run concretely: ASR signals
unavailability, the persisted entry carries the typed transcript and an
empty transliteration. -/
theorem asr_unavailable_manual_transcript_witness :
    (asrResultOf envNoProviders).error = some "faster-whisper not available" ∧
    (asrResultOf envNoProviders).transcript = "" ∧
    (runPipeline envNoProviders opScenario1 [0] "song1.wav" fsEmpty).2 =
      .saved (pipelineEntry envNoProviders opScenario1 "song1.wav") ∧
    (pipelineEntry envNoProviders opScenario1 "song1.wav").transcript =
      "sample lyrics" ∧
    (pipelineEntry envNoProviders opScenario1 "song1.wav").transliteration = "" :=
  asr_unavailable_manual_transcript envNoProviders opScenario1 [0] "song1.wav"
    fsEmpty [] rfl rfl rfl rfl rfl rfl rfl

/-- C9: every entry a run persists carries uploaded_at equal to its id (the
same timestamp token), and the persisted record holds exactly the twelve
data-model fields, in dict order — in particular no consent field. -/
theorem persisted_entry_fields (env : Env) (op : OperatorInput)
    (b : List Nat) (name : String) (fs : FS) (e : Entry)
    (h : (runPipeline env op b name fs).2 = .saved e) :
    e.uploaded_at = e.id ∧
    (entryFields e).map Prod.fst =
      ["id", "title", "performer", "location", "context",
       "date_of_recording", "uploaded_at", "audio_path", "transcript",
       "transliteration", "translation", "detected_language"] ∧
    "consent" ∉ (entryFields e).map Prod.fst := by
  obtain ⟨he, -, -⟩ := runPipeline_saved_inv env op b name fs e h
  subst he
  exact ⟨rfl, rfl, by simp [entryFields]⟩

/-- C9 witness: the entry persisted by a concrete consented run has
uploaded_at equal to id and exactly the twelve fields, none named
consent. -/
theorem persisted_entry_fields_witness :
    (pipelineEntry envNoProviders opScenario1 "song1.wav").uploaded_at =
      (pipelineEntry envNoProviders opScenario1 "song1.wav").id ∧
    (entryFields (pipelineEntry envNoProviders opScenario1 "song1.wav")).map
        Prod.fst =
      ["id", "title", "performer", "location", "context",
       "date_of_recording", "uploaded_at", "audio_path", "transcript",
       "transliteration", "translation", "detected_language"] ∧
    "consent" ∉
      (entryFields (pipelineEntry envNoProviders opScenario1 "song1.wav")).map
        Prod.fst :=
  persisted_entry_fields envNoProviders opScenario1 [0] "song1.wav" fsEmpty
    (pipelineEntry envNoProviders opScenario1 "song1.wav") (by decide)

end LokGeet
